import Mathlib

/-!
Shallow embedding of the swap-pricing, decoding and transaction-building
logic of the `solana-mev-bot` repository, together with theorems settling
the frozen specification claims.

Machine integers (`u64`, `u128`) are modelled as `Nat` together with
explicit bound checks; Rust's `checked_*` operations become
`Option`-returning functions, a failed `unwrap` or an explicit `panic!`
becomes an error value of an explicit outcome type, and `as u64`
truncation becomes `% 2^64`.
-/

namespace SolanaMevBot

/-- `2^64`, the modulus of Rust's `u64`. -/
def U64_MOD : Nat := 2 ^ 64

/-- `2^128`, the modulus of Rust's `u128`. -/
def U128_MOD : Nat := 2 ^ 128

/-- Rust `u64::checked_add`: `none` exactly on overflow past `2^64 - 1`. -/
def checkedAdd64 (a b : Nat) : Option Nat :=
  if a + b < U64_MOD then some (a + b) else none

/-- Rust `u64::checked_mul`: `none` exactly on overflow past `2^64 - 1`. -/
def checkedMul64 (a b : Nat) : Option Nat :=
  if a * b < U64_MOD then some (a * b) else none

/-- Rust `u128::checked_add`: `none` exactly on overflow past `2^128 - 1`. -/
def checkedAdd128 (a b : Nat) : Option Nat :=
  if a + b < U128_MOD then some (a + b) else none

/-- Rust `u128::checked_mul`: `none` exactly on overflow past `2^128 - 1`. -/
def checkedMul128 (a b : Nat) : Option Nat :=
  if a * b < U128_MOD then some (a * b) else none

/-- Rust `checked_sub` (any width): `none` exactly when the result would be
negative; otherwise the exact difference, never a wrapped value. -/
def checkedSub (a b : Nat) : Option Nat :=
  if b ≤ a then some (a - b) else none

/-- Rust `checked_div` (any width): `none` exactly on division by zero;
otherwise floor division. -/
def checkedDiv (a b : Nat) : Option Nat :=
  if b = 0 then none else some (a / b)

/-- `src/raydium/structure.rs`: `SwapDirection`. -/
inductive SwapDirection where
  | Buy
  | Sell
deriving DecidableEq, Repr

/-- `src/raydium/structure.rs`: the `Fees` record (four
numerator/denominator pairs). -/
structure Fees where
  min_separate_numerator : Nat
  min_separate_denominator : Nat
  trade_fee_numerator : Nat
  trade_fee_denominator : Nat
  pnl_numerator : Nat
  pnl_denominator : Nat
  swap_fee_numerator : Nat
  swap_fee_denominator : Nat
deriving DecidableEq, Repr

/-- `src/raydium/structure.rs`: the fields of `StateData` used by the
pricing path (deferred profit-and-loss offsets per side). -/
structure StateData where
  need_take_pnl_coin : Nat
  need_take_pnl_pc : Nat
deriving DecidableEq, Repr

/-- `src/raydium/structure.rs`: the fields of `AmmInfo` that the claims
under verification read (status, fees, PNL offsets, the two mints).
Addresses are modelled as opaque strings. -/
structure AmmInfo where
  status : Nat
  fees : Fees
  state_data : StateData
  coin_vault_mint : String
  pc_vault_mint : String
deriving DecidableEq, Repr

namespace Raydium

/-- `src/raydium/math.rs`: `calc_total_without_take_pnl_no_orderbook`.
Subtracts each side's deferred PNL offset with `checked_sub`; a would-be
negative result is the `CheckedSubOverflow` error, modelled as `none`. -/
def calc_total_without_take_pnl_no_orderbook (pc_amount coin_amount : Nat)
    (amm : AmmInfo) : Option (Nat × Nat) := do
  let total_pc_without_take_pnl ←
    checkedSub pc_amount amm.state_data.need_take_pnl_pc
  let total_coin_without_take_pnl ←
    checkedSub coin_amount amm.state_data.need_take_pnl_coin
  pure (total_pc_without_take_pnl, total_coin_without_take_pnl)

/-- `src/raydium/math.rs`: `amount_with_slippage` (identical source text to
the pumpfun copy; `up_towards` plays the role of `is_buy`). All operands
are `u64`; `u64::try_from` on a `u64` value is the identity and is elided. -/
def amount_with_slippage (amount slippage_bps : Nat) (up_towards : Bool) :
    Option Nat := do
  let ten_thounsand := 10000
  if up_towards then
    let factor ← checkedAdd64 slippage_bps ten_thounsand
    let product ← checkedMul64 amount factor
    checkedDiv product ten_thounsand
  else
    let factor ← checkedSub ten_thounsand slippage_bps
    let product ← checkedMul64 amount factor
    checkedDiv product ten_thounsand

/-- `src/raydium/math.rs`: `swap_token_amount_base_in` (`u128` math; the
`unwrap`ped checked operations are modelled as `Option`). -/
def swap_token_amount_base_in (amount_in total_pc_without_take_pnl
    total_coin_without_take_pnl : Nat) (swap_direction : SwapDirection) :
    Option Nat :=
  match swap_direction with
  | .Buy => do
      let denominator ← checkedAdd128 total_coin_without_take_pnl amount_in
      let product ← checkedMul128 total_pc_without_take_pnl amount_in
      checkedDiv product denominator
  | .Sell => do
      let denominator ← checkedAdd128 total_pc_without_take_pnl amount_in
      let product ← checkedMul128 total_coin_without_take_pnl amount_in
      checkedDiv product denominator

/-- `src/raydium/math.rs`: `swap_token_amount_base_out` (`u128` math). -/
def swap_token_amount_base_out (amount_out total_pc_without_take_pnl
    total_coin_without_take_pnl : Nat) (swap_direction : SwapDirection) :
    Option Nat :=
  match swap_direction with
  | .Buy => do
      let denominator ← checkedSub total_pc_without_take_pnl amount_out
      let product ← checkedMul128 total_coin_without_take_pnl amount_out
      checkedDiv product denominator
  | .Sell => do
      let denominator ← checkedSub total_coin_without_take_pnl amount_out
      let product ← checkedMul128 total_pc_without_take_pnl amount_out
      checkedDiv product denominator

/-- `src/raydium/math.rs`: `swap_exact_amount`. In the exact-in branch the
swap fee `floor(amount * fee_num / fee_den)` is deducted from the input
before the constant-product formula; in the exact-out branch the inverse
formula's result is grossed up by `* fee_den / (fee_den - fee_num)`.
The final `as u64` casts of the `u128` intermediate are `% 2^64`. -/
def swap_exact_amount (pc_vault_amount coin_vault_amount
    swap_fee_numerator swap_fee_denominator : Nat)
    (swap_direction : SwapDirection) (amount_specified : Nat)
    (swap_base_in : Bool) : Option Nat :=
  if swap_base_in then do
    let product ← checkedMul128 amount_specified swap_fee_numerator
    let swap_fee ← checkedDiv product swap_fee_denominator
    let swap_in_after_deduct_fee ← checkedSub amount_specified swap_fee
    let swap_amount_out ← swap_token_amount_base_in swap_in_after_deduct_fee
      pc_vault_amount coin_vault_amount swap_direction
    pure (swap_amount_out % U64_MOD)
  else do
    let swap_in_before_add_fee ← swap_token_amount_base_out amount_specified
      pc_vault_amount coin_vault_amount swap_direction
    let fee_gap ← checkedSub swap_fee_denominator swap_fee_numerator
    let product ← checkedMul128 swap_in_before_add_fee swap_fee_denominator
    let swap_in_after_add_fee ← checkedDiv product fee_gap
    pure (swap_in_after_add_fee % U64_MOD)

/-- `src/raydium/math.rs`: `swap_with_slippage` — quote then widen the
threshold by the slippage bound (min-out for exact-in, max-in for
exact-out). -/
def swap_with_slippage (pc_vault_amount coin_vault_amount
    swap_fee_numerator swap_fee_denominator : Nat)
    (swap_direction : SwapDirection) (amount_specified : Nat)
    (swap_base_in : Bool) (slippage_bps : Nat) : Option Nat := do
  let other_amount_threshold ← swap_exact_amount pc_vault_amount
    coin_vault_amount swap_fee_numerator swap_fee_denominator
    swap_direction amount_specified swap_base_in
  if swap_base_in then
    amount_with_slippage other_amount_threshold slippage_bps false
  else
    amount_with_slippage other_amount_threshold slippage_bps true

end Raydium

namespace Pumpfun

/-- `src/pumpfun/math.rs`: `amount_with_slippage` (source text identical to
the raydium copy up to the parameter name `is_buy`). -/
def amount_with_slippage (amount slippage_bps : Nat) (is_buy : Bool) :
    Option Nat := do
  let ten_thounsand := 10000
  if is_buy then
    let factor ← checkedAdd64 slippage_bps ten_thounsand
    let product ← checkedMul64 amount factor
    checkedDiv product ten_thounsand
  else
    let factor ← checkedSub ten_thounsand slippage_bps
    let product ← checkedMul64 amount factor
    checkedDiv product ten_thounsand

end Pumpfun

/-! ## Chain event stream: byte-level decoding helpers -/

/-- Little-endian byte list to natural number (the value of
`u32::from_le_bytes` / `u64::from_le_bytes` on those bytes). -/
def leBytesToNat : List Nat → Nat
  | [] => 0
  | b :: bs => b + 256 * leBytesToNat bs

/-- Rust slice `&xs[start..start+len]`: `none` exactly when the range
exceeds the buffer (in Rust, an index panic). -/
def sliceBytes (xs : List Nat) (start len : Nat) : Option (List Nat) :=
  if start + len ≤ xs.length then some ((xs.drop start).take len) else none

/-- UTF-8 validation state machine: how many continuation bytes are still
expected, refined by the range restriction on the next byte. -/
inductive Utf8State where
  | start
  | one
  | twoNormal
  | twoE0
  | twoED
  | threeNormal
  | threeF0
  | threeF4
deriving DecidableEq, Repr

/-- A UTF-8 continuation byte (`0x80 ..= 0xBF`). -/
def isCont (b : Nat) : Bool := 0x80 ≤ b && b ≤ 0xBF

/-- One step of the UTF-8 acceptor (RFC 3629, the algorithm implemented by
Rust's `str::from_utf8`): `none` on an invalid byte for the state. -/
def utf8Step : Utf8State → Nat → Option Utf8State
  | .start, b =>
    if b ≤ 0x7F then some .start
    else if b < 0xC2 then none
    else if b ≤ 0xDF then some .one
    else if b = 0xE0 then some .twoE0
    else if b = 0xED then some .twoED
    else if b ≤ 0xEF then some .twoNormal
    else if b = 0xF0 then some .threeF0
    else if b ≤ 0xF3 then some .threeNormal
    else if b = 0xF4 then some .threeF4
    else none
  | .one, b => if isCont b then some .start else none
  | .twoNormal, b => if isCont b then some .one else none
  | .twoE0, b => if 0xA0 ≤ b && b ≤ 0xBF then some .one else none
  | .twoED, b => if 0x80 ≤ b && b ≤ 0x9F then some .one else none
  | .threeNormal, b => if isCont b then some .twoNormal else none
  | .threeF0, b => if 0x90 ≤ b && b ≤ 0xBF then some .twoNormal else none
  | .threeF4, b => if 0x80 ≤ b && b ≤ 0x8F then some .twoNormal else none

/-- Run the UTF-8 acceptor over a byte list. -/
def utf8Run : Utf8State → List Nat → Option Utf8State
  | s, [] => some s
  | s, b :: bs =>
    match utf8Step s b with
    | some s2 => utf8Run s2 bs
    | none => none

/-- Whether a byte list is valid UTF-8 (Rust `str::from_utf8(..).is_ok()`). -/
def isValidUtf8 (bytes : List Nat) : Bool := utf8Run .start bytes == some .start

namespace TokenCreate

/-- `src/monitor/token_create.rs`: the known program id constant
`PUMPFUNPROGRAM` (account keys are modelled as opaque strings). -/
def PUMPFUNPROGRAM : String := "6EF8rrecthR5Dkzon8Nwu78hRvfCKubJ14M5uBEwF6P"

/-- `src/monitor/token_create.rs`: `CREATEDISCRIMINATOR`, the `u64` value
of the little-endian bytes `[24, 30, 200, 40, 5, 28, 7, 119]`. -/
def CREATEDISCRIMINATOR : Nat := leBytesToNat [24, 30, 200, 40, 5, 28, 7, 119]

/-- `src/monitor/token_create.rs`: `IX_DEF`, the declared ordered field
schema of the create instruction. -/
def IX_DEF : List (String × String) :=
  [("name", "string"), ("symbol", "string"), ("uri", "string")]

/-- The ways `decode_create_instruction` fails: a slice past the end of
the data buffer (a Rust index panic), invalid UTF-8 (a propagated `Err`),
an account index past the end of the account list (a Rust index panic),
or an unsupported schema type (a returned `Err`). -/
inductive DecodeFailure where
  | sliceOutOfRange
  | invalidUtf8
  | accountIndexOutOfRange
  | unsupportedType
deriving DecidableEq, Repr

/-- A decoded field value: a UTF-8 string argument (kept as its bytes), a
raw 32-byte public-key argument, or an account key from the account list. -/
inductive ArgValue where
  | strVal : List Nat → ArgValue
  | keyVal : List Nat → ArgValue
  | acctVal : String → ArgValue
deriving DecidableEq, Repr

/-- Read one schema field at `offset`: for `"string"`, a 4-byte
little-endian length prefix then that many UTF-8 bytes; for `"publicKey"`,
32 raw bytes. Returns the value and the next offset. -/
def decodeField (ix_data : List Nat) (offset : Nat) (arg_type : String) :
    Except DecodeFailure (ArgValue × Nat) :=
  if arg_type = "string" then
    match sliceBytes ix_data offset 4 with
    | none => .error .sliceOutOfRange
    | some lenBytes =>
      let length := leBytesToNat lenBytes
      match sliceBytes ix_data (offset + 4) length with
      | none => .error .sliceOutOfRange
      | some valueBytes =>
        if isValidUtf8 valueBytes then .ok (.strVal valueBytes, offset + 4 + length)
        else .error .invalidUtf8
  else if arg_type = "publicKey" then
    match sliceBytes ix_data offset 32 with
    | none => .error .sliceOutOfRange
    | some keyBytes => .ok (.keyVal keyBytes, offset + 32)
  else .error .unsupportedType

/-- The schema-driven loop of `decode_create_instruction`. -/
def decodeFieldList (ix_data : List Nat) :
    List (String × String) → Nat → Except DecodeFailure (List (String × ArgValue))
  | [], _ => .ok []
  | (name, arg_type) :: rest, offset =>
    match decodeField ix_data offset arg_type with
    | .error e => .error e
    | .ok (value, offset2) =>
      match decodeFieldList ix_data rest offset2 with
      | .error e => .error e
      | .ok tail => .ok ((name, value) :: tail)

/-- Positional read `accounts[i]` (a Rust index panic when out of range). -/
def getAccount (accounts : List String) (i : Nat) :
    Except DecodeFailure String :=
  match accounts.get? i with
  | some a => .ok a
  | none => .error .accountIndexOutOfRange

/-- `src/monitor/token_create.rs`: `decode_create_instruction`. Parses the
three schema fields starting after the 8-byte discriminator, then appends
the four positionally read accounts (indices 0, 2, 3, 7). The final
markdown rendering is pure presentation and is elided; the decoded
ordered field list is returned. -/
def decode_create_instruction (ix_data : List Nat) (accounts : List String) :
    Except DecodeFailure (List (String × ArgValue)) := do
  let args ← decodeFieldList ix_data IX_DEF 8
  let mint ← getAccount accounts 0
  let bondingCurve ← getAccount accounts 2
  let associatedBondingCurve ← getAccount accounts 3
  let user ← getAccount accounts 7
  .ok (args ++
    [("mint", .acctVal mint),
     ("bondingCurve", .acctVal bondingCurve),
     ("associatedBondingCurve", .acctVal associatedBondingCurve),
     ("user", .acctVal user)])

/-- A compiled instruction of a decoded transaction: program-id index,
account-index list, raw data bytes. -/
structure Instr where
  program_id_index : Nat
  accounts : List Nat
  data : List Nat
deriving DecidableEq, Repr

/-- A decoded transaction: its static account keys and instruction list
(the versioned-transaction envelope decode is outside this model). -/
structure TxRecord where
  account_keys : List String
  instructions : List Instr
deriving DecidableEq, Repr

/-- A confirmed block as `process_block` consumes it; `transactions` is an
`Option` because the source calls `block.transactions.unwrap()`. -/
structure Block where
  transactions : Option (List TxRecord)
deriving DecidableEq, Repr

/-- The panics `process_block` can hit (each is an `unwrap`/index panic in
the source, aborting the whole call). -/
inductive CreateScanPanic where
  | missingTransactions
  | programIndexOutOfRange
  | dataTooShort
  | accountKeyIndexOutOfRange
  | decodeUnwrap : DecodeFailure → CreateScanPanic
deriving DecidableEq, Repr

/-- Map the instruction's account indices through the static account keys
(`account_keys[*idx]`, a Rust index panic when out of range). -/
def mapAccountIndices (account_keys : List String) :
    List Nat → Except CreateScanPanic (List String)
  | [] => .ok []
  | i :: rest =>
    match account_keys.get? i with
    | none => .error .accountKeyIndexOutOfRange
    | some k =>
      match mapAccountIndices account_keys rest with
      | .error e => .error e
      | .ok tail => .ok (k :: tail)

/-- Process one instruction of `process_block`: look up the program id,
filter on `PUMPFUNPROGRAM` and the 8-byte create discriminator, then
`decode_create_instruction(..).map(..).unwrap()` — a decode failure is
`unwrap`ped and panics. -/
def processInstruction (account_keys : List String) (instruction : Instr) :
    Except CreateScanPanic (List (List (String × ArgValue))) :=
  match account_keys.get? instruction.program_id_index with
  | none => .error .programIndexOutOfRange
  | some programKey =>
    if programKey = PUMPFUNPROGRAM then
      if instruction.data.length < 8 then .error .dataTooShort
      else
        let discriminator := leBytesToNat (instruction.data.take 8)
        if discriminator = CREATEDISCRIMINATOR then
          match mapAccountIndices account_keys instruction.accounts with
          | .error e => .error e
          | .ok accounts =>
            match decode_create_instruction instruction.data accounts with
            | .ok v => .ok [v]
            | .error e => .error (.decodeUnwrap e)
        else .ok []
    else .ok []

/-- Process the instruction list of one transaction in order. -/
def processInstrList (account_keys : List String) :
    List Instr → Except CreateScanPanic (List (List (String × ArgValue)))
  | [] => .ok []
  | i :: rest =>
    match processInstruction account_keys i with
    | .error e => .error e
    | .ok out =>
      match processInstrList account_keys rest with
      | .error e => .error e
      | .ok tail => .ok (out ++ tail)

/-- Process one transaction. -/
def processTx (tx : TxRecord) :
    Except CreateScanPanic (List (List (String × ArgValue))) :=
  processInstrList tx.account_keys tx.instructions

/-- Process a transaction list in order, concatenating emitted events. -/
def processTxList :
    List TxRecord → Except CreateScanPanic (List (List (String × ArgValue)))
  | [] => .ok []
  | t :: rest =>
    match processTx t with
    | .error e => .error e
    | .ok out =>
      match processTxList rest with
      | .error e => .error e
      | .ok tail => .ok (out ++ tail)

/-- `src/monitor/token_create.rs`: `process_block`. -/
def process_block (block : Block) :
    Except CreateScanPanic (List (List (String × ArgValue))) :=
  match block.transactions with
  | none => .error .missingTransactions
  | some txs => processTxList txs

end TokenCreate

namespace TokenMigration

/-- The panics `process_initialize2_transaction` can hit:
`decode_tx.signatures[0]` on an empty signature list. -/
inductive MigrationPanic where
  | noSignature
deriving DecidableEq, Repr

/-- A decoded transaction as the migration scanner reads it: signatures
and static account keys (the envelope decode is outside this model). -/
structure MigrationTx where
  signatures : List String
  account_keys : List String
deriving DecidableEq, Repr

/-- `src/monitor/token_migration.rs`: `process_initialize2_transaction`.
Reads `signatures[0]`, then — only behind the explicit length guard
`account_keys.len() > 19` — the coin mint, pc mint and liquidity pool
from fixed positions 18, 19 and 2; a shorter account list yields `None`.
The message formatting is elided; the read tuple is returned. -/
def process_initialize2_transaction (tx : MigrationTx) :
    Except MigrationPanic (Option (String × String × String × String)) :=
  match h0 : tx.signatures.get? 0 with
  | none => .error .noSignature
  | some signature =>
    if h : 19 < tx.account_keys.length then
      .ok (some (signature,
        tx.account_keys.get ⟨18, by omega⟩,
        tx.account_keys.get ⟨19, h⟩,
        tx.account_keys.get ⟨2, by omega⟩))
    else .ok none

end TokenMigration

namespace Raydium

/-- How the direction-selection step of `calculate_swap_info` can fail:
the claimed `AssetMismatch` returned error, or the `panic!` the source
actually contains. (`assetMismatch` exists so the claimed failure mode is
expressible; no definition in this file produces it.) -/
inductive SwapInfoError where
  | assetMismatch
  | panics : String → SwapInfoError
deriving DecidableEq, Repr

/-- `src/raydium/math.rs`, `calculate_swap_info` lines 58-73: compare the
user input token's mint against the pool's coin and pc mints; coin mint
gives `Buy` with (input, output) = (coin, pc), pc mint gives `Sell` with
(pc, coin), anything else hits
`panic!("input tokens not match pool vaults")`. -/
def select_swap_direction (user_input_mint amm_coin_mint amm_pc_mint : String) :
    Except SwapInfoError (SwapDirection × String × String) :=
  if user_input_mint = amm_coin_mint then
    .ok (.Buy, amm_coin_mint, amm_pc_mint)
  else if user_input_mint = amm_pc_mint then
    .ok (.Sell, amm_pc_mint, amm_coin_mint)
  else
    .error (.panics "input tokens not match pool vaults")

/-! ## Transaction builder (`src/raydium/swap.rs`, `src/raydium/tx.rs`) -/

/-- The instructions `get_swap_tx` and `new_signed_and_send` can place in
a transaction. Addresses are opaque strings; `init_account` models the
spl-token account-initialization instruction. -/
inductive SwapInstr where
  | createAccountWithSeed (funder newAccount base seed : String) (lamports space : Nat)
  | init_account (acct mint owner : String)
  | createAssociatedTokenAccount (funder owner mint : String)
  | swapBaseIn (source dest : String) (amount_specified other_amount_threshold : Nat)
  | swapBaseOut (source dest : String) (max_amount_in amount_out : Nat)
  | closeAccount (acct dest owner : String)
  | computeUnitLimit (n : Nat)
  | computeUnitPrice (n : Nat)
deriving DecidableEq, Repr

/-- The inputs of `get_swap_tx`'s instruction-building phase. Network
reads are abstracted into fields: `rent` is the rent-exemption minimum,
`out_ata_exists` the result of the output-ATA existence probe,
`other_amount_threshold` the quote's slippage-protected threshold, and
`wsol_pubkey` the seed-derived address of the temporary wrapped-SOL
account (`Pubkey::create_with_seed(owner, seed, token_program)`). -/
structure GetSwapTxParams where
  token_in : String
  token_out : String
  native_mint : String
  owner : String
  coin_mint : String
  pc_mint : String
  in_ata : String
  out_ata : String
  wsol_seed : String
  wsol_pubkey : String
  amount_specified : Nat
  rent : Nat
  other_amount_threshold : Nat
  out_ata_exists : Bool
deriving DecidableEq, Repr

/-- The panics of `get_swap_tx`'s building phase: the two direction
`assert_eq!` checks. -/
inductive BuildPanic where
  | assertTokenOutMismatch
deriving DecidableEq, Repr

/-- `src/raydium/swap.rs`, `get_swap_tx` lines 56-64: direction from
`token_in` against the pool's coin mint, with `assert_eq!` on
`token_out`. -/
def get_swap_direction (p : GetSwapTxParams) :
    Except BuildPanic SwapDirection :=
  if p.token_in = p.coin_mint then
    if p.token_out = p.pc_mint then .ok .Buy
    else .error .assertTokenOutMismatch
  else
    if p.token_out = p.coin_mint then .ok .Sell
    else .error .assertTokenOutMismatch

/-- `src/raydium/swap.rs`, `get_swap_tx` lines 131-229: the instruction
list built for the swap. When either traded mint is the native mint, a
temporary wrapped-SOL account is created with seed and initialized; the
output-ATA creation instruction (decided earlier, Buy side only) follows;
the swap instruction and the wrapped-SOL `close_account` are only pushed
under `amount_specified > 0`. -/
def get_swap_tx_instructions (p : GetSwapTxParams) :
    Except BuildPanic (List SwapInstr) := do
  let swap_direction ← get_swap_direction p
  let swap_base_in := p.token_in = p.native_mint
  let create_instruction : Option SwapInstr :=
    match swap_direction with
    | .Buy =>
      if p.out_ata_exists then none
      else some (.createAssociatedTokenAccount p.owner p.owner p.token_out)
    | .Sell => none
  let wsol_needed := p.token_in = p.native_mint ∨ p.token_out = p.native_mint
  let ins0 : List SwapInstr :=
    if wsol_needed then
      let total_amount :=
        if p.token_in = p.native_mint then p.rent + p.amount_specified
        else p.rent
      [.createAccountWithSeed p.owner p.wsol_pubkey p.owner p.wsol_seed
         total_amount 165,
       .init_account p.wsol_pubkey p.native_mint p.owner]
    else []
  let ins1 := ins0 ++
    (match create_instruction with | some i => [i] | none => [])
  let ins2 :=
    if 0 < p.amount_specified then
      let final_in_ata :=
        if wsol_needed ∧ swap_direction = .Buy then p.wsol_pubkey
        else p.in_ata
      let final_out_ata :=
        if wsol_needed ∧ swap_direction = .Sell then p.wsol_pubkey
        else p.out_ata
      let swap_instruction :=
        if swap_base_in then
          SwapInstr.swapBaseIn final_in_ata final_out_ata
            p.amount_specified p.other_amount_threshold
        else
          SwapInstr.swapBaseOut final_in_ata final_out_ata
            p.other_amount_threshold p.amount_specified
      let close_part :=
        if wsol_needed then
          [SwapInstr.closeAccount p.wsol_pubkey p.owner p.owner]
        else []
      [swap_instruction] ++ close_part
    else []
  .ok (ins1 ++ ins2)

/-- The network-dependent outcomes of transaction finalization: the
simulation verdict (`none` on success, the error text on failure) and the
signature a real submission would return. -/
structure TxEnv where
  sim_err : Option String
  send_signature : String
deriving DecidableEq, Repr

/-- `src/raydium/tx.rs`: `new_signed_and_send`. Prepends the two
compute-budget instructions, then either simulates (error on a failed
simulation, empty signature list on success) or submits (one signature). -/
def new_signed_and_send (instructions : List SwapInstr)
    (unit_limit unit_price : Nat) (is_simulate : Bool) (env : TxEnv) :
    Except String (List String) :=
  let _txn := SwapInstr.computeUnitLimit unit_limit ::
    SwapInstr.computeUnitPrice unit_price :: instructions
  if is_simulate then
    match env.sim_err with
    | some err => .error err
    | none => .ok []
  else
    .ok [env.send_signature]

/-- The failure modes of a full `get_swap_tx` run: a build-phase panic or
a failed simulation. -/
inductive GetSwapTxError where
  | buildPanic : BuildPanic → GetSwapTxError
  | simFailed : String → GetSwapTxError
deriving DecidableEq, Repr

/-- `src/raydium/swap.rs`, `get_swap_tx` line 230: the built instruction
list is handed to `new_signed_and_send` with `is_simulate` the literal
`true`. -/
def get_swap_tx_run (p : GetSwapTxParams) (unit_limit unit_price : Nat)
    (env : TxEnv) : Except GetSwapTxError (List String) :=
  match get_swap_tx_instructions p with
  | .error e => .error (.buildPanic e)
  | .ok instructions =>
    match new_signed_and_send instructions unit_limit unit_price true env with
    | .error msg => .error (.simFailed msg)
    | .ok sigs => .ok sigs

/-- Whether an instruction creates the seeded account `addr`. -/
def createsWithSeed (addr : String) : SwapInstr → Bool
  | .createAccountWithSeed _ newAccount _ _ _ _ => newAccount == addr
  | _ => false

/-- Whether an instruction initializes the token account `addr`. -/
def initsAccount (addr : String) : SwapInstr → Bool
  | .init_account a _ _ => a == addr
  | _ => false

/-- Whether an instruction closes the token account `addr`. -/
def closesAccount (addr : String) : SwapInstr → Bool
  | .closeAccount a _ _ => a == addr
  | _ => false

end Raydium

namespace Pumpfun

/-- Bonding-curve pricing failure: the curve has migrated. -/
inductive CurveError where
  | protocolClosed
deriving DecidableEq, Repr

/-- Modelled from the spec: `BondingCurveAccount::get_buy_price`, invoked
by `buy` in `src/pumpfun/operation.rs`; its defining module is not among
the repository's source files. Spec §4.2: given native-asset input `x`
and reserves `(R_native, R_token)`, output = `floor(R_token * x /
(R_native + x))`; fails with `ProtocolClosed` if `complete` is true. -/
def get_buy_price (complete : Bool) (r_native r_token x : Nat) :
    Except CurveError Nat :=
  if complete then .error .protocolClosed
  else .ok (r_token * x / (r_native + x))

end Pumpfun

/-! ## Concrete test fixtures -/

/-- A create instruction whose `name` field declares length 1 followed by
the byte `0xFF`, which is not valid UTF-8: `decode_create_instruction`
fails on it. -/
def c2FailInstr : TokenCreate.Instr :=
  ⟨0, [], [24, 30, 200, 40, 5, 28, 7, 119, 1, 0, 0, 0, 255]⟩

/-- A transaction holding only the malformed create instruction. -/
def c2FailTx : TokenCreate.TxRecord :=
  ⟨[TokenCreate.PUMPFUNPROGRAM], [c2FailInstr]⟩

/-- A well-formed create instruction: three empty strings and eight
accounts. -/
def c2OkInstr : TokenCreate.Instr :=
  ⟨0, [1, 2, 3, 4, 5, 6, 7, 8],
   [24, 30, 200, 40, 5, 28, 7, 119, 0, 0, 0, 0, 0, 0, 0, 0, 0, 0, 0, 0]⟩

/-- A transaction holding only the well-formed create instruction. -/
def c2OkTx : TokenCreate.TxRecord :=
  ⟨[TokenCreate.PUMPFUNPROGRAM, "a", "b", "c", "d", "e", "f", "g", "h"],
   [c2OkInstr]⟩

/-- The event decoded from `c2OkTx`. -/
def c2OkEvent : List (String × TokenCreate.ArgValue) :=
  [("name", .strVal []), ("symbol", .strVal []), ("uri", .strVal []),
   ("mint", .acctVal "a"), ("bondingCurve", .acctVal "c"),
   ("associatedBondingCurve", .acctVal "d"), ("user", .acctVal "h")]

/-- A native-in swap request whose `ui_amount_to_amount` conversion came
out as zero: the wrapped-SOL account is still created and initialized,
but the `amount_specified > 0` block that holds the close instruction is
skipped. -/
def c3Params0 : Raydium.GetSwapTxParams :=
  { token_in := "NATIVE", token_out := "TOK", native_mint := "NATIVE",
    owner := "owner", coin_mint := "NATIVE", pc_mint := "TOK",
    in_ata := "in-ata", out_ata := "out-ata", wsol_seed := "seed",
    wsol_pubkey := "wsol", amount_specified := 0, rent := 2039280,
    other_amount_threshold := 0, out_ata_exists := true }

/-- `c3Params0` with a positive amount. -/
def c3Params1 : Raydium.GetSwapTxParams :=
  { c3Params0 with amount_specified := 7 }

/-! ## Helper lemmas -/

/-- Closed form of the buy-side slippage computation. -/
theorem pumpfun_slippage_buy_eq (a bps : Nat) :
    Pumpfun.amount_with_slippage a bps true =
      if bps + 10000 < U64_MOD then
        if a * (bps + 10000) < U64_MOD then some (a * (bps + 10000) / 10000)
        else none
      else none := by
  simp only [Pumpfun.amount_with_slippage, checkedAdd64, checkedMul64,
    checkedDiv, if_true]
  by_cases h1 : bps + 10000 < U64_MOD
  · simp only [if_pos h1, Option.some_bind]
    by_cases h2 : a * (bps + 10000) < U64_MOD
    · simp [h2]
    · simp [h2]
  · simp [h1]

/-- Closed form of the sell-side slippage computation. -/
theorem pumpfun_slippage_sell_eq (a bps : Nat) :
    Pumpfun.amount_with_slippage a bps false =
      if bps ≤ 10000 then
        if a * (10000 - bps) < U64_MOD then some (a * (10000 - bps) / 10000)
        else none
      else none := by
  simp only [Pumpfun.amount_with_slippage, checkedSub, checkedMul64,
    checkedDiv, Bool.false_eq_true, if_false]
  by_cases h1 : bps ≤ 10000
  · simp only [if_pos h1, Option.some_bind]
    by_cases h2 : a * (10000 - bps) < U64_MOD
    · simp [h2]
    · simp [h2]
  · simp [h1]

/-- The two copies of `amount_with_slippage` have identical behaviour. -/
theorem amount_with_slippage_copies_agree (a bps : Nat) (b : Bool) :
    Pumpfun.amount_with_slippage a bps b = Raydium.amount_with_slippage a bps b := rfl

/-! ## Claim theorems -/

/-- C4: for every defined evaluation, the buy-direction slippage bound is
at least the amount, the sell-direction bound is at most the amount, both
directions return exactly the amount at `slippage_bps = 0`, and the
pumpfun and raydium copies of `amount_with_slippage` agree. -/
theorem c4_amount_with_slippage_bounds :
    (∀ a bps v, Pumpfun.amount_with_slippage a bps true = some v → a ≤ v) ∧
    (∀ a bps v, Pumpfun.amount_with_slippage a bps false = some v → v ≤ a) ∧
    (∀ a, a * 10000 < U64_MOD →
      Pumpfun.amount_with_slippage a 0 true = some a ∧
      Pumpfun.amount_with_slippage a 0 false = some a) ∧
    (∀ a bps b, Pumpfun.amount_with_slippage a bps b =
      Raydium.amount_with_slippage a bps b) := by
  refine ⟨?_, ?_, ?_, fun a bps b => rfl⟩
  · intro a bps v h
    rw [pumpfun_slippage_buy_eq] at h
    split at h
    · split at h
      · cases h
        have h1 : a * 10000 ≤ a * (bps + 10000) :=
          Nat.mul_le_mul_left a (by omega)
        calc a = a * 10000 / 10000 := (Nat.mul_div_cancel a (by norm_num)).symm
          _ ≤ a * (bps + 10000) / 10000 := Nat.div_le_div_right h1
      · cases h
    · cases h
  · intro a bps v h
    rw [pumpfun_slippage_sell_eq] at h
    split at h
    · split at h
      · cases h
        have h1 : a * (10000 - bps) ≤ a * 10000 :=
          Nat.mul_le_mul_left a (by omega)
        calc a * (10000 - bps) / 10000 ≤ a * 10000 / 10000 :=
            Nat.div_le_div_right h1
          _ = a := Nat.mul_div_cancel a (by norm_num)
      · cases h
    · cases h
  · intro a ha
    constructor
    · rw [pumpfun_slippage_buy_eq]
      rw [if_pos (by norm_num [U64_MOD]), if_pos (by simpa using ha)]
      simp [Nat.mul_div_cancel a (by norm_num : 0 < 10000)]
    · rw [pumpfun_slippage_sell_eq]
      rw [if_pos (by norm_num), if_pos (by simpa using ha)]
      simp [Nat.mul_div_cancel a (by norm_num : 0 < 10000)]

/-- C4 witness: the theorem instantiated at concrete inputs. -/
theorem c4_witness :
    100 ≤ 101 ∧ 99 ≤ 100 ∧
    (Pumpfun.amount_with_slippage 7 0 true = some 7 ∧
     Pumpfun.amount_with_slippage 7 0 false = some 7) := by
  refine ⟨c4_amount_with_slippage_bounds.1 100 100 101 (by decide),
    c4_amount_with_slippage_bounds.2.1 100 100 99 (by decide),
    c4_amount_with_slippage_bounds.2.2.1 7 (by decide)⟩

/-- C5: the PNL-offset subtraction fails (returns `none`, the
`CheckedSubOverflow` error) exactly when an offset exceeds its vault
amount, and otherwise returns the exact differences — never a wrapped
value. -/
theorem c5_pnl_subtraction_checked :
    ∀ (pc_amount coin_amount : Nat) (amm : AmmInfo),
      ((pc_amount < amm.state_data.need_take_pnl_pc ∨
        coin_amount < amm.state_data.need_take_pnl_coin) →
        Raydium.calc_total_without_take_pnl_no_orderbook pc_amount coin_amount amm
          = none) ∧
      (amm.state_data.need_take_pnl_pc ≤ pc_amount →
        amm.state_data.need_take_pnl_coin ≤ coin_amount →
        Raydium.calc_total_without_take_pnl_no_orderbook pc_amount coin_amount amm
          = some (pc_amount - amm.state_data.need_take_pnl_pc,
                  coin_amount - amm.state_data.need_take_pnl_coin)) := by
  intro pc_amount coin_amount amm
  constructor
  · intro hover
    rcases hover with h | h
    · simp [Raydium.calc_total_without_take_pnl_no_orderbook, checkedSub,
        Nat.not_le.mpr h]
    · by_cases hpc : amm.state_data.need_take_pnl_pc ≤ pc_amount
      · simp [Raydium.calc_total_without_take_pnl_no_orderbook, checkedSub,
          hpc, Nat.not_le.mpr h]
      · simp [Raydium.calc_total_without_take_pnl_no_orderbook, checkedSub, hpc]
  · intro hpc hcoin
    simp [Raydium.calc_total_without_take_pnl_no_orderbook, checkedSub,
      hpc, hcoin]

/-- C5 witness: the theorem instantiated at concrete inputs. -/
theorem c5_witness :
    (Raydium.calc_total_without_take_pnl_no_orderbook 5 100
      { status := 6, fees := ⟨5, 10000, 25, 10000, 12, 100, 25, 10000⟩,
        state_data := ⟨3, 7⟩, coin_vault_mint := "c", pc_vault_mint := "p" }
      = none) ∧
    (Raydium.calc_total_without_take_pnl_no_orderbook 100 100
      { status := 6, fees := ⟨5, 10000, 25, 10000, 12, 100, 25, 10000⟩,
        state_data := ⟨3, 7⟩, coin_vault_mint := "c", pc_vault_mint := "p" }
      = some (93, 97)) := by
  refine ⟨(c5_pnl_subtraction_checked 5 100 _).1 (Or.inl (by decide)),
    (c5_pnl_subtraction_checked 100 100 _).2 (by decide) (by decide)⟩

/-- C8: the spec-modelled bonding-curve buy price on an open curve equals
`floor(R_token * x / (R_native + x))`; at reserves `(1_000_000,
2_000_000)` and input `10_000` it is `19_801`; a completed curve fails
with `ProtocolClosed`. -/
theorem c8_bonding_curve_buy_formula :
    (∀ r_native r_token x, Pumpfun.get_buy_price false r_native r_token x
      = .ok (r_token * x / (r_native + x))) ∧
    Pumpfun.get_buy_price false 1000000 2000000 10000 = .ok 19801 ∧
    (∀ r_native r_token x, Pumpfun.get_buy_price true r_native r_token x
      = .error .protocolClosed) := by
  refine ⟨fun rn rt x => rfl, rfl, fun rn rt x => rfl⟩

/-- C1 counterexample: at pc vault `1_000_000`, coin vault `2_000_000`,
fee `25/10000`, exact-in amount `10_000` with the pc side as input
(`Sell`), the code does not return the claimed `19_753`: the floor of
`2_000_000 * 9_975 / 1_009_975` is `19_752`. -/
theorem c1_counterexample :
    Raydium.swap_exact_amount 1000000 2000000 25 10000
      SwapDirection.Sell 10000 true ≠ some 19753 := by
  intro h
  have h2 : Raydium.swap_exact_amount 1000000 2000000 25 10000
      SwapDirection.Sell 10000 true = some 19752 := rfl
  rw [h2] at h
  cases h

/-- C1 (amended): for every exact-in call on `u64` inputs with a
nonzero fee denominator and fee fraction at most one, the fee
`floor(input * fee_num / fee_den)` is subtracted from the input before
the floor-division constant-product formula is applied (the final
`as u64` cast reduces mod `2^64`); at the concrete inputs of the claim
the result is `19_752`, with fee-adjusted input `9_975`. -/
theorem c1_exact_in_fee_deducted_before_formula :
    (∀ pc_vault coin_vault fee_num fee_den amount
        (dir : SwapDirection),
      amount < U64_MOD → fee_num < U64_MOD → 0 < fee_den →
      fee_num ≤ fee_den →
      Raydium.swap_exact_amount pc_vault coin_vault fee_num fee_den dir
          amount true =
        Option.map (fun out => out % U64_MOD)
          (Raydium.swap_token_amount_base_in
            (amount - amount * fee_num / fee_den) pc_vault coin_vault dir)) ∧
    10000 - 10000 * 25 / 10000 = 9975 ∧
    Raydium.swap_exact_amount 1000000 2000000 25 10000
      SwapDirection.Sell 10000 true = some 19752 := by
  refine ⟨?_, rfl, rfl⟩
  intro pc_vault coin_vault fee_num fee_den amount dir hamt hfn hfd hle
  have hmul : amount * fee_num < U128_MOD := by
    have h1 : amount * fee_num < U64_MOD * U64_MOD :=
      Nat.mul_lt_mul_of_lt_of_le hamt (Nat.le_of_lt hfn)
        (by norm_num [U64_MOD])
    have h2 : U64_MOD * U64_MOD = U128_MOD := by norm_num [U64_MOD, U128_MOD]
    omega
  have hfee : amount * fee_num / fee_den ≤ amount := by
    have h1 : amount * fee_num / fee_den ≤ amount * fee_den / fee_den :=
      Nat.div_le_div_right (Nat.mul_le_mul_left amount hle)
    rwa [Nat.mul_div_cancel amount hfd] at h1
  have e1 : checkedMul128 amount fee_num = some (amount * fee_num) := by
    simp [checkedMul128, hmul]
  have e2 : checkedDiv (amount * fee_num) fee_den
      = some (amount * fee_num / fee_den) := by
    simp [checkedDiv, Nat.pos_iff_ne_zero.mp hfd]
  have e3 : checkedSub amount (amount * fee_num / fee_den)
      = some (amount - amount * fee_num / fee_den) := by
    simp [checkedSub, hfee]
  simp only [Raydium.swap_exact_amount, if_true, e1, e2, e3,
    Option.some_bind]
  cases h : Raydium.swap_token_amount_base_in
      (amount - amount * fee_num / fee_den) pc_vault coin_vault dir <;>
    simp [h, e2, e3]

/-- C1 witness: the general statement instantiated at the claim's
concrete exact-in call. -/
theorem c1_witness :
    Raydium.swap_exact_amount 1000000 2000000 25 10000
        SwapDirection.Sell 10000 true =
      Option.map (fun out => out % U64_MOD)
        (Raydium.swap_token_amount_base_in (10000 - 10000 * 25 / 10000)
          1000000 2000000 SwapDirection.Sell) :=
  c1_exact_in_fee_deducted_before_formula.1 1000000 2000000 25 10000 10000
    SwapDirection.Sell (by norm_num [U64_MOD]) (by norm_num [U64_MOD])
    (by norm_num) (by norm_num)

/-- C7: the exact-out quote first solves the inverse constant-product
relation (`amount_out * other_reserve / (this_reserve - amount_out)` with
floor division), then grosses the result up by
`floor(input_before_fee * fee_den / (fee_den - fee_num))`, multiplying by
`fee_den` before dividing by `fee_den - fee_num`. -/
theorem c7_exact_out_fee_gross_up :
    (∀ pc_vault coin_vault fee_num fee_den amount
        (dir : SwapDirection) (input_before_fee : Nat),
      fee_num < fee_den →
      Raydium.swap_token_amount_base_out amount pc_vault coin_vault dir
        = some input_before_fee →
      input_before_fee * fee_den < U128_MOD →
      input_before_fee * fee_den / (fee_den - fee_num) < U64_MOD →
      Raydium.swap_exact_amount pc_vault coin_vault fee_num fee_den dir
          amount false =
        some (input_before_fee * fee_den / (fee_den - fee_num))) ∧
    (∀ amount pc coin, amount < pc → coin * amount < U128_MOD →
      Raydium.swap_token_amount_base_out amount pc coin SwapDirection.Buy
        = some (coin * amount / (pc - amount))) ∧
    (∀ amount pc coin, amount < coin → pc * amount < U128_MOD →
      Raydium.swap_token_amount_base_out amount pc coin SwapDirection.Sell
        = some (pc * amount / (coin - amount))) := by
  refine ⟨?_, ?_, ?_⟩
  · intro pc_vault coin_vault fee_num fee_den amount dir input_before_fee
      hlt hout hmul hsmall
    have e1 : checkedSub fee_den fee_num = some (fee_den - fee_num) := by
      simp [checkedSub, Nat.le_of_lt hlt]
    have e2 : checkedMul128 input_before_fee fee_den
        = some (input_before_fee * fee_den) := by
      simp [checkedMul128, hmul]
    have e3 : checkedDiv (input_before_fee * fee_den) (fee_den - fee_num)
        = some (input_before_fee * fee_den / (fee_den - fee_num)) := by
      simp [checkedDiv]
      omega
    simp only [Raydium.swap_exact_amount, Bool.false_eq_true, if_false,
      hout, e1, e2, e3, Option.some_bind]
    simp [e2, e3, Nat.mod_eq_of_lt hsmall]
  · intro amount pc coin hlt hmul
    have e1 : checkedSub pc amount = some (pc - amount) := by
      simp [checkedSub, Nat.le_of_lt hlt]
    have e2 : checkedMul128 coin amount = some (coin * amount) := by
      simp [checkedMul128, hmul]
    have e3 : checkedDiv (coin * amount) (pc - amount)
        = some (coin * amount / (pc - amount)) := by
      simp [checkedDiv]
      omega
    simp [Raydium.swap_token_amount_base_out, e1, e2, e3]
  · intro amount pc coin hlt hmul
    have e1 : checkedSub coin amount = some (coin - amount) := by
      simp [checkedSub, Nat.le_of_lt hlt]
    have e2 : checkedMul128 pc amount = some (pc * amount) := by
      simp [checkedMul128, hmul]
    have e3 : checkedDiv (pc * amount) (coin - amount)
        = some (pc * amount / (coin - amount)) := by
      simp [checkedDiv]
      omega
    simp [Raydium.swap_token_amount_base_out, e1, e2, e3]

/-- C7 witness: exact-out Buy quote at concrete inputs: inverse formula
gives `floor(2_000_000 * 10_000 / 990_000) = 20_202`, grossed up to
`floor(20_202 * 10_000 / 9_975) = 20_252`. -/
theorem c7_witness :
    Raydium.swap_token_amount_base_out 10000 1000000 2000000
        SwapDirection.Buy = some 20202 ∧
    Raydium.swap_exact_amount 1000000 2000000 25 10000 SwapDirection.Buy
        10000 false = some 20252 := by
  have h1 : Raydium.swap_token_amount_base_out 10000 1000000 2000000
      SwapDirection.Buy = some (2000000 * 10000 / (1000000 - 10000)) :=
    c7_exact_out_fee_gross_up.2.1 10000 1000000 2000000 (by norm_num)
      (by norm_num [U128_MOD])
  have h2 := c7_exact_out_fee_gross_up.1 1000000 2000000 25 10000 10000
    SwapDirection.Buy 20202 (by norm_num) (by rw [h1])
    (by norm_num [U128_MOD]) (by norm_num [U64_MOD])
  refine ⟨by rw [h1], by rw [h2]⟩

/-- C6 counterexample: when the input mint matches neither pool mint the
failure mode is a `panic!` with message "input tokens not match pool
vaults", not a returned `AssetMismatch` error. -/
theorem c6_counterexample :
    Raydium.select_swap_direction "mintX" "mintA" "mintB" ≠
      Except.error Raydium.SwapInfoError.assetMismatch ∧
    Raydium.select_swap_direction "mintX" "mintA" "mintB" =
      Except.error
        (Raydium.SwapInfoError.panics "input tokens not match pool vaults") := by
  constructor
  · intro h
    have h2 : Raydium.select_swap_direction "mintX" "mintA" "mintB" =
        Except.error
          (Raydium.SwapInfoError.panics "input tokens not match pool vaults") := by
      simp [Raydium.select_swap_direction]
    rw [h2] at h
    simp at h
  · simp [Raydium.select_swap_direction]

/-- C6 (amended): direction selection matches the input mint against the
pool's coin mint (giving `Buy` with (input, output) = (coin, pc)) and
then its pc mint (giving `Sell` with (pc, coin)); a mint matching neither
makes `calculate_swap_info` panic with "input tokens not match pool
vaults" instead of returning an `AssetMismatch` error. -/
theorem c6_direction_selection :
    ∀ user_mint coin_mint pc_mint : String,
      (user_mint = coin_mint →
        Raydium.select_swap_direction user_mint coin_mint pc_mint =
          .ok (SwapDirection.Buy, coin_mint, pc_mint)) ∧
      (user_mint ≠ coin_mint → user_mint = pc_mint →
        Raydium.select_swap_direction user_mint coin_mint pc_mint =
          .ok (SwapDirection.Sell, pc_mint, coin_mint)) ∧
      (user_mint ≠ coin_mint → user_mint ≠ pc_mint →
        Raydium.select_swap_direction user_mint coin_mint pc_mint =
          .error (Raydium.SwapInfoError.panics
            "input tokens not match pool vaults")) := by
  intro user_mint coin_mint pc_mint
  refine ⟨fun h => by simp [Raydium.select_swap_direction, h],
    fun h1 h2 => by
      simp only [Raydium.select_swap_direction, if_neg h1, if_pos h2],
    fun h1 h2 => by
      simp only [Raydium.select_swap_direction, if_neg h1, if_neg h2]⟩

/-- C6 witness: the amended statement instantiated at concrete mints. -/
theorem c6_witness :
    Raydium.select_swap_direction "coin" "coin" "pc" =
      .ok (SwapDirection.Buy, "coin", "pc") ∧
    Raydium.select_swap_direction "pc" "coin" "pc" =
      .ok (SwapDirection.Sell, "pc", "coin") ∧
    Raydium.select_swap_direction "other" "coin" "pc" =
      .error (Raydium.SwapInfoError.panics
        "input tokens not match pool vaults") :=
  ⟨(c6_direction_selection "coin" "coin" "pc").1 rfl,
   (c6_direction_selection "pc" "coin" "pc").2.1 (by decide) rfl,
   (c6_direction_selection "other" "coin" "pc").2.2 (by decide) (by decide)⟩

/-- C9: a short account list is a hard decode failure and never an
out-of-bounds read: the create decoder cannot succeed when the account
list has no index 7 (it returns a failure value instead), and the
migration decoder returns no event at all when the static account key
list has no index 19 (its explicit `len() > 19` guard fails). -/
theorem c9_short_account_list_hard_failure :
    (∀ (ix_data : List Nat) (accounts : List String),
      accounts.length ≤ 7 →
      ∀ v, TokenCreate.decode_create_instruction ix_data accounts ≠
        Except.ok v) ∧
    (∀ tx : TokenMigration.MigrationTx,
      tx.signatures ≠ [] → tx.account_keys.length ≤ 19 →
      TokenMigration.process_initialize2_transaction tx = .ok none) := by
  constructor
  · intro ix_data accounts hlen v h
    have h7 : accounts[7]? = none := List.getElem?_eq_none (by omega)
    unfold TokenCreate.decode_create_instruction at h
    cases h1 : TokenCreate.decodeFieldList ix_data TokenCreate.IX_DEF 8 with
    | error e => rw [h1] at h; simp [Bind.bind, Except.bind] at h
    | ok args =>
      rw [h1] at h
      cases h2 : TokenCreate.getAccount accounts 0 with
      | error e => rw [h2] at h; simp [Bind.bind, Except.bind] at h
      | ok a0 =>
        rw [h2] at h
        cases h3 : TokenCreate.getAccount accounts 2 with
        | error e => rw [h3] at h; simp [Bind.bind, Except.bind] at h
        | ok a2 =>
          rw [h3] at h
          cases h4 : TokenCreate.getAccount accounts 3 with
          | error e => rw [h4] at h; simp [Bind.bind, Except.bind] at h
          | ok a3 =>
            rw [h4] at h
            simp [Bind.bind, Except.bind, TokenCreate.getAccount, h7] at h
  · intro tx hsig hlen
    obtain ⟨sigs, keys⟩ := tx
    cases sigs with
    | nil => exact absurd rfl hsig
    | cons s ss =>
      simp only [TokenMigration.process_initialize2_transaction] at *
      simp only [List.get?] at *
      rw [dif_neg (by simpa using hlen)]

/-- C9 witness: the theorem instantiated at concrete short inputs. -/
theorem c9_witness :
    (TokenCreate.decode_create_instruction [] [] ≠ Except.ok []) ∧
    TokenMigration.process_initialize2_transaction ⟨["sig"], ["key"]⟩ =
      .ok none :=
  ⟨c9_short_account_list_hard_failure.1 [] [] (by decide) [],
   c9_short_account_list_hard_failure.2 ⟨["sig"], ["key"]⟩ (by decide)
     (by decide)⟩

/-- C10: the constant-product swap path finalizes with `is_simulate`
fixed to `true`: a successful run returns the empty signature list, the
outcome depends only on the simulation verdict (never on what a real
submission would return), and a failed simulation surfaces as the error. -/
theorem c10_simulate_only :
    ∀ (p : Raydium.GetSwapTxParams) (unit_limit unit_price : Nat)
      (env : Raydium.TxEnv),
      (∀ sigs, Raydium.get_swap_tx_run p unit_limit unit_price env =
        .ok sigs → sigs = []) ∧
      (∀ env2 : Raydium.TxEnv, env.sim_err = env2.sim_err →
        Raydium.get_swap_tx_run p unit_limit unit_price env =
        Raydium.get_swap_tx_run p unit_limit unit_price env2) ∧
      (∀ msg ins, Raydium.get_swap_tx_instructions p = .ok ins →
        env.sim_err = some msg →
        Raydium.get_swap_tx_run p unit_limit unit_price env =
          .error (.simFailed msg)) := by
  intro p unit_limit unit_price env
  refine ⟨?_, ?_, ?_⟩
  · intro sigs h
    unfold Raydium.get_swap_tx_run at h
    cases hb : Raydium.get_swap_tx_instructions p with
    | error e => rw [hb] at h; cases h
    | ok ins =>
      rw [hb] at h
      unfold Raydium.new_signed_and_send at h
      cases he : env.sim_err with
      | some msg => rw [he] at h; simp at h
      | none => rw [he] at h; simp at h; exact h
  · intro env2 hsim
    unfold Raydium.get_swap_tx_run Raydium.new_signed_and_send
    rw [hsim]
    simp
  · intro msg ins hins hmsg
    unfold Raydium.get_swap_tx_run Raydium.new_signed_and_send
    rw [hins, hmsg]
    simp

/-- C10 witness: the theorem instantiated at a concrete parameter set and
simulation environment. -/
theorem c10_witness :
    ([] : List String) = [] ∧
    Raydium.get_swap_tx_run
        { token_in := "SOL", token_out := "TOK", native_mint := "SOL",
          owner := "o", coin_mint := "SOL", pc_mint := "TOK",
          in_ata := "ia", out_ata := "oa", wsol_seed := "s",
          wsol_pubkey := "w", amount_specified := 5, rent := 100,
          other_amount_threshold := 3, out_ata_exists := true }
        200000 20000 ⟨none, "sigA"⟩ =
      Raydium.get_swap_tx_run
        { token_in := "SOL", token_out := "TOK", native_mint := "SOL",
          owner := "o", coin_mint := "SOL", pc_mint := "TOK",
          in_ata := "ia", out_ata := "oa", wsol_seed := "s",
          wsol_pubkey := "w", amount_specified := 5, rent := 100,
          other_amount_threshold := 3, out_ata_exists := true }
        200000 20000 ⟨none, "sigB"⟩ :=
  ⟨(c10_simulate_only
      { token_in := "SOL", token_out := "TOK", native_mint := "SOL",
        owner := "o", coin_mint := "SOL", pc_mint := "TOK",
        in_ata := "ia", out_ata := "oa", wsol_seed := "s",
        wsol_pubkey := "w", amount_specified := 5, rent := 100,
        other_amount_threshold := 3, out_ata_exists := true }
      200000 20000 ⟨none, "sigA"⟩).1 [] (by rfl),
   (c10_simulate_only
      { token_in := "SOL", token_out := "TOK", native_mint := "SOL",
        owner := "o", coin_mint := "SOL", pc_mint := "TOK",
        in_ata := "ia", out_ata := "oa", wsol_seed := "s",
        wsol_pubkey := "w", amount_specified := 5, rent := 100,
        other_amount_threshold := 3, out_ata_exists := true }
      200000 20000 ⟨none, "sigA"⟩).2.1 ⟨none, "sigB"⟩ rfl⟩

/-- C2 counterexample: a block whose second transaction carries a create
instruction with an invalid-UTF-8 string field makes `process_block`
abort with the `unwrap` panic instead of skipping the instruction — the
event already decoded from the first transaction is lost as well. -/
theorem c2_counterexample :
    TokenCreate.process_block ⟨some [c2OkTx, c2FailTx]⟩ =
      .error (.decodeUnwrap .invalidUtf8) := rfl

/-- C2 (amended): a decode failure on any single matching create
instruction aborts `process_block` via the `unwrap` panic: once the
failing instruction is reached, the whole call returns that panic, the
remaining instructions of its transaction and all later transactions are
not processed, and no events are returned. -/
theorem c2_decode_failure_aborts_block :
    (∀ (account_keys : List String) (pre : List TokenCreate.Instr)
        (i : TokenCreate.Instr) (post : List TokenCreate.Instr)
        (out : List (List (String × TokenCreate.ArgValue)))
        (e : TokenCreate.CreateScanPanic),
      TokenCreate.processInstrList account_keys pre = .ok out →
      TokenCreate.processInstruction account_keys i = .error e →
      TokenCreate.processInstrList account_keys (pre ++ i :: post)
        = .error e) ∧
    (∀ (pre : List TokenCreate.TxRecord) (t : TokenCreate.TxRecord)
        (post : List TokenCreate.TxRecord)
        (out : List (List (String × TokenCreate.ArgValue)))
        (e : TokenCreate.CreateScanPanic),
      TokenCreate.processTxList pre = .ok out →
      TokenCreate.processTx t = .error e →
      TokenCreate.process_block ⟨some (pre ++ t :: post)⟩ = .error e) := by
  have hinstr : ∀ (account_keys : List String)
      (pre : List TokenCreate.Instr) (i : TokenCreate.Instr)
      (post : List TokenCreate.Instr)
      (out : List (List (String × TokenCreate.ArgValue)))
      (e : TokenCreate.CreateScanPanic),
      TokenCreate.processInstrList account_keys pre = .ok out →
      TokenCreate.processInstruction account_keys i = .error e →
      TokenCreate.processInstrList account_keys (pre ++ i :: post)
        = .error e := by
    intro ak pre
    induction pre with
    | nil =>
      intro i post out e hpre hi
      simp [TokenCreate.processInstrList, hi]
    | cons p ps ih =>
      intro i post out e hpre hi
      simp only [TokenCreate.processInstrList] at hpre
      cases hp : TokenCreate.processInstruction ak p with
      | error e2 => rw [hp] at hpre; cases hpre
      | ok o =>
        rw [hp] at hpre
        cases hps : TokenCreate.processInstrList ak ps with
        | error e2 => rw [hps] at hpre; cases hpre
        | ok os =>
          have hrec := ih i post os e hps hi
          rw [List.cons_append]
          simp [TokenCreate.processInstrList, hp, hrec]
  have htx : ∀ (pre : List TokenCreate.TxRecord)
      (t : TokenCreate.TxRecord) (post : List TokenCreate.TxRecord)
      (out : List (List (String × TokenCreate.ArgValue)))
      (e : TokenCreate.CreateScanPanic),
      TokenCreate.processTxList pre = .ok out →
      TokenCreate.processTx t = .error e →
      TokenCreate.processTxList (pre ++ t :: post) = .error e := by
    intro pre
    induction pre with
    | nil =>
      intro t post out e hpre ht
      simp [TokenCreate.processTxList, ht]
    | cons p ps ih =>
      intro t post out e hpre ht
      simp only [TokenCreate.processTxList] at hpre
      cases hp : TokenCreate.processTx p with
      | error e2 => rw [hp] at hpre; cases hpre
      | ok o =>
        rw [hp] at hpre
        cases hps : TokenCreate.processTxList ps with
        | error e2 => rw [hps] at hpre; cases hpre
        | ok os =>
          have hrec := ih t post os e hps ht
          rw [List.cons_append]
          simp [TokenCreate.processTxList, hp, hrec]
  exact ⟨hinstr, fun pre t post out e hpre ht => by
    simp only [TokenCreate.process_block]
    exact htx pre t post out e hpre ht⟩

/-- C2 witness: the abort-propagation statement applied to a concrete
block: one well-decoding transaction followed by the malformed one. -/
theorem c2_witness :
    TokenCreate.processTxList [c2OkTx] = .ok [c2OkEvent] ∧
    TokenCreate.processTx c2FailTx = .error (.decodeUnwrap .invalidUtf8) ∧
    TokenCreate.process_block ⟨some ([c2OkTx] ++ c2FailTx :: [])⟩ =
      .error (.decodeUnwrap .invalidUtf8) :=
  have h1 : TokenCreate.processTxList [c2OkTx] = .ok [c2OkEvent] := rfl
  have h2 : TokenCreate.processTx c2FailTx =
      .error (.decodeUnwrap .invalidUtf8) := rfl
  ⟨h1, h2, c2_decode_failure_aborts_block.2 [c2OkTx] c2FailTx [] [c2OkEvent]
    (.decodeUnwrap .invalidUtf8) h1 h2⟩

/-- C3 counterexample: at `amount_specified = 0` with the native mint as
input, the built instruction list creates and initializes the temporary
wrapped-native account but contains no `close_account` for it. -/
theorem c3_counterexample :
    Raydium.get_swap_tx_instructions c3Params0 =
      Except.ok
        [Raydium.SwapInstr.createAccountWithSeed "owner" "wsol" "owner"
          "seed" 2039280 165,
         Raydium.SwapInstr.init_account "wsol" "NATIVE" "owner"] ∧
    List.any
        [Raydium.SwapInstr.createAccountWithSeed "owner" "wsol" "owner"
          "seed" 2039280 165,
         Raydium.SwapInstr.init_account "wsol" "NATIVE" "owner"]
        (Raydium.createsWithSeed "wsol") = true ∧
    List.any
        [Raydium.SwapInstr.createAccountWithSeed "owner" "wsol" "owner"
          "seed" 2039280 165,
         Raydium.SwapInstr.init_account "wsol" "NATIVE" "owner"]
        (Raydium.closesAccount "wsol") = false :=
  ⟨rfl, rfl, rfl⟩

/-- C3 (amended): for every successfully built instruction list with
`amount_specified > 0`, if the list creates the temporary wrapped-native
account then it also initializes and closes that same account within the
same transaction. -/
theorem c3_wsol_lifecycle :
    ∀ (p : Raydium.GetSwapTxParams) (l : List Raydium.SwapInstr),
      0 < p.amount_specified →
      Raydium.get_swap_tx_instructions p = .ok l →
      l.any (Raydium.createsWithSeed p.wsol_pubkey) = true →
      l.any (Raydium.initsAccount p.wsol_pubkey) = true ∧
      l.any (Raydium.closesAccount p.wsol_pubkey) = true := by
  intro p l hamt h hcreate
  unfold Raydium.get_swap_tx_instructions at h
  cases hdir : Raydium.get_swap_direction p with
  | error e => rw [hdir] at h; simp [Bind.bind, Except.bind] at h
  | ok dir =>
    rw [hdir] at h
    simp only [Bind.bind, Except.bind, Except.ok.injEq] at h
    subst h
    by_cases hw : p.token_in = p.native_mint ∨ p.token_out = p.native_mint
    · constructor
      · simp [hw, hamt, Raydium.initsAccount]
      · simp [hw, hamt, Raydium.closesAccount]
    · exfalso
      obtain ⟨hw1, hw2⟩ := not_or.mp hw
      rcases dir <;> by_cases ho : p.out_ata_exists <;>
        simp [hw, hw1, hw2, hamt, ho, Raydium.createsWithSeed] at hcreate

/-- C3 witness: the amended statement applied at a concrete positive
amount. -/
theorem c3_witness :
    0 < c3Params1.amount_specified ∧
    ((Raydium.get_swap_tx_instructions c3Params1).toOption.getD []).any
        (Raydium.initsAccount c3Params1.wsol_pubkey) = true ∧
    ((Raydium.get_swap_tx_instructions c3Params1).toOption.getD []).any
        (Raydium.closesAccount c3Params1.wsol_pubkey) = true := by
  have hbuild : Raydium.get_swap_tx_instructions c3Params1 =
      .ok [Raydium.SwapInstr.createAccountWithSeed "owner" "wsol" "owner"
             "seed" 2039287 165,
           Raydium.SwapInstr.init_account "wsol" "NATIVE" "owner",
           Raydium.SwapInstr.swapBaseIn "wsol" "out-ata" 7 0,
           Raydium.SwapInstr.closeAccount "wsol" "owner" "owner"] := rfl
  have h := c3_wsol_lifecycle c3Params1 _ (by decide) hbuild
    (by rw [hbuild] at *; rfl)
  rw [hbuild]
  exact ⟨by decide, h.1, h.2⟩

end SolanaMevBot
